import Mathlib

/-!
Verification of the SolarGIS single-building solar yield estimation script.

The definitions below are a shallow embedding of the solar model and the
terrain summarizer of AlmostFineScipt.py (sections 3.3, 3.4, 4, 5 and 6 of
the script).  Raster and vector GIS operations are external collaborators;
their results enter the model only as scalar inputs (availability flags,
zonal means, areas), which is how they are modelled here.  Pure scalar
branching logic is modelled over the rationals; the trigonometric solar
model is modelled over the reals.
-/

open Real

/-- Roof descriptors produced by the terrain and shadow summarizer:
mean slope in degrees, mean aspect in degrees, shadow factor. -/
structure RoofDescriptor where
  slope_deg : ℚ
  aspect_deg : ℚ
  shadow_factor : ℚ
  deriving DecidableEq, Repr

/-- Hillshade-mean-to-shadow-factor conversion of the script, line 210:
shadow_factor = 0.5 + (hillshade_mean / 255.0) * 0.5.  The script applies
no clamping to this expression. -/
def shadow_factor (hillshade_mean : ℚ) : ℚ :=
  0.5 + hillshade_mean / 255.0 * 0.5

/-- Terrain and shadow summarizer of the script, sections 3.3 and 3.4.
The slope and aspect rasters are handled by one block: if either file is
missing, the block prints one warning and uses slope 0 and aspect 180;
otherwise it takes the zonal means, substituting 0 and 180 for null means
without a warning.  The hillshade raster is handled by a second block: if
the file is missing, the block prints one warning and uses shadow factor
1.0; otherwise it converts the zonal mean (255 for a null mean) through
shadow_factor.  The second component of the result counts the warnings
printed. -/
def summarize_terrain (slope_available aspect_available : Bool)
    (slope_mean aspect_mean : Option ℚ)
    (hillshade_available : Bool) (hillshade_mean : Option ℚ) :
    RoofDescriptor × Nat :=
  let sa : (ℚ × ℚ) × Nat :=
    if slope_available && aspect_available then
      ((slope_mean.getD 0, aspect_mean.getD 180), 0)
    else ((0, 180), 1)
  let sh : ℚ × Nat :=
    if hillshade_available then
      (shadow_factor (hillshade_mean.getD 255), 0)
    else (1.0, 1)
  (⟨sa.1.1, sa.1.2, sh.1⟩, sa.2 + sh.2)

/-- Building-area plausibility guard of the script, lines 321 to 328: the
footprint area is used unchanged unless it is below 1 m² or above
10000000 m², in which case a warning is printed and the area of the first
feature of the reprojected single-building layer is substituted.  The
boolean component records whether the warning was printed. -/
def resolve_building_area (feature_area fallback_area : ℚ) : ℚ × Bool :=
  if feature_area < 1.0 ∨ feature_area > 10000000 then (fallback_area, true)
  else (feature_area, false)

/-- Denominator of the Linke attenuation factor in
calculate_daily_radiation, line 283. -/
def linke_denominator (linke_turbidity : ℝ) : ℝ :=
  1.0 + 0.1 * (linke_turbidity - 3.0)

/-- Linke attenuation factor of calculate_daily_radiation, line 283:
1.0 / (1.0 + 0.1 * (linke_turbidity - 3.0)), an unguarded division. -/
noncomputable def linke_factor (linke_turbidity : ℝ) : ℝ :=
  1.0 / linke_denominator linke_turbidity

/-- Final yield formula of the script, line 330. -/
noncomputable def potential_power_kwh_year
    (building_area_m2 annual_kwh_m2 eff perf : ℝ) : ℝ :=
  building_area_m2 * annual_kwh_m2 * eff * perf

/-- Claim C3, counterexample: when all three terrain rasters are
unavailable the summarizer emits two warning signals, not one. -/
theorem summarize_terrain_all_missing_two_warnings :
    (summarize_terrain false false none none false none).2 ≠ 1 := by
  decide

/-- Claim C3, amended: if all three terrain rasters are unavailable, the
summarizer returns exactly the default RoofDescriptor with slope 0,
aspect 180 and shadow factor 1.0, does not fail, and emits exactly two
warning signals: one for the slope and aspect block and one for the
hillshade block. -/
theorem summarize_terrain_all_missing (sm am hm : Option ℚ) :
    summarize_terrain false false sm am false hm =
      (⟨0, 180, 1.0⟩, 2) := by
  rfl

/-- Claim C5, counterexample: the conversion is not clamped, so a
hillshade mean above 255 yields a shadow factor above 1. -/
theorem shadow_factor_unclamped : 1 < shadow_factor 510 := by
  norm_num [shadow_factor]

/-- Claim C5, amended: the conversion computes 0.5 + (h/255)*0.5 with no
clamping; for every hillshade mean h in [0, 255] the result lies in
[0.5, 1.0]; the conversion is monotonic non-decreasing in h everywhere;
and it maps h = 0 to exactly 0.5 and h = 255 to exactly 1.0. -/
theorem shadow_factor_spec (h : ℚ) (h0 : 0 ≤ h) (h255 : h ≤ 255) :
    (0.5 ≤ shadow_factor h ∧ shadow_factor h ≤ 1.0) ∧
      Monotone shadow_factor ∧
      shadow_factor 0 = 0.5 ∧ shadow_factor 255 = 1.0 := by
  refine ⟨⟨?_, ?_⟩, ?_, by norm_num [shadow_factor], by norm_num [shadow_factor]⟩
  · simp only [shadow_factor]
    nlinarith
  · simp only [shadow_factor]
    nlinarith
  · intro a b hab
    simp only [shadow_factor]
    nlinarith

/-- Witness for shadow_factor_spec at hillshade mean 100. -/
theorem shadow_factor_spec_witness :
    (0.5 ≤ shadow_factor 100 ∧ shadow_factor 100 ≤ 1.0) ∧
      Monotone shadow_factor ∧
      shadow_factor 0 = 0.5 ∧ shadow_factor 255 = 1.0 :=
  shadow_factor_spec 100 (by norm_num) (by norm_num)

/-- Claim C9: the supplied footprint area is used unchanged exactly when
it lies in [1.0, 10000000.0] m²; below 1 m² or above 10000000 m² the
script warns and substitutes the fallback area taken from the first
feature of the reprojected single-building layer. -/
theorem building_area_guard (a fb : ℚ) :
    ((1.0 ≤ a ∧ a ≤ 10000000) → resolve_building_area a fb = (a, false)) ∧
      ((a < 1.0 ∨ 10000000 < a) → resolve_building_area a fb = (fb, true)) := by
  constructor
  · rintro ⟨h1, h2⟩
    rw [resolve_building_area, if_neg]
    push_neg
    exact ⟨h1, h2⟩
  · intro h
    rw [resolve_building_area, if_pos h]

/-- Witness for building_area_guard: area 120 m² is kept with no warning;
area 0.5 m² triggers the warning and the fallback area 57 m². -/
theorem building_area_guard_witness :
    resolve_building_area 120 57 = (120, false) ∧
      resolve_building_area 0.5 57 = (57, true) :=
  ⟨(building_area_guard 120 57).1 ⟨by norm_num, by norm_num⟩,
   (building_area_guard 0.5 57).2 (Or.inl (by norm_num))⟩

/-- Claim C10: the Linke factor is an unguarded division with denominator
1 + 0.1*(turbidity - 3); for every turbidity strictly above -7 the
denominator is positive so the factor is defined, while at turbidity = -7
the denominator is exactly zero and the division fails. -/
theorem linke_factor_division_guard :
    (∀ t : ℝ, linke_factor t = 1.0 / linke_denominator t) ∧
      (∀ t : ℝ, -7 < t → 0 < linke_denominator t) ∧
      linke_denominator (-7) = 0 := by
  refine ⟨fun t => rfl, fun t ht => ?_, by norm_num [linke_denominator]⟩
  simp only [linke_denominator]
  nlinarith

/-- Witness for linke_factor_division_guard at turbidity 3. -/
theorem linke_factor_division_guard_witness :
    linke_factor 3 = 1.0 / linke_denominator 3 ∧
      0 < linke_denominator 3 ∧ linke_denominator (-7) = 0 :=
  ⟨linke_factor_division_guard.1 3,
   linke_factor_division_guard.2.1 3 (by norm_num),
   linke_factor_division_guard.2.2⟩

/-- Claim C7: the potential yield is the product of roof area, annual
insolation, panel efficiency and performance ratio, and doubling any one
of area, efficiency or performance ratio exactly doubles the yield. -/
theorem potential_power_linear (a i e p : ℝ) :
    potential_power_kwh_year a i e p = a * i * e * p ∧
      potential_power_kwh_year (2 * a) i e p = 2 * potential_power_kwh_year a i e p ∧
      potential_power_kwh_year a i (2 * e) p = 2 * potential_power_kwh_year a i e p ∧
      potential_power_kwh_year a i e (2 * p) = 2 * potential_power_kwh_year a i e p := by
  refine ⟨rfl, ?_, ?_, ?_⟩ <;> simp only [potential_power_kwh_year] <;> ring

/-- Degrees to radians, as math.radians: x * pi / 180. -/
noncomputable def radians (x : ℝ) : ℝ := x * Real.pi / 180

/-- calculate_solar_declination of the script, lines 217 to 219. -/
noncomputable def calculate_solar_declination (day : ℝ) : ℝ :=
  23.45 * Real.sin (radians ((360 / 365) * (day - 81)))

/-- calculate_daylight_hours of the script, lines 221 to 230. -/
noncomputable def calculate_daylight_hours (latitude declination : ℝ) : ℝ :=
  let lat_rad := radians latitude
  let decl_rad := radians declination
  let cos_omega := max (-1) (min 1 (-Real.tan lat_rad * Real.tan decl_rad))
  let omega_s := Real.arccos cos_omega
  2 * omega_s * 12 / Real.pi

/-- calculate_extraterrestrial_radiation of the script, lines 232 to 249. -/
noncomputable def calculate_extraterrestrial_radiation
    (day latitude declination : ℝ) : ℝ :=
  let solar_constant : ℝ := 1367
  let dr := 1 + 0.033 * Real.cos (radians (360 * day / 365))
  let lat_rad := radians latitude
  let decl_rad := radians declination
  let cos_omega := max (-1) (min 1 (-Real.tan lat_rad * Real.tan decl_rad))
  let omega_s := Real.arccos cos_omega
  24 * 3600 / Real.pi * solar_constant * dr *
      (omega_s * Real.sin lat_rad * Real.sin decl_rad +
        Real.cos lat_rad * Real.cos decl_rad * Real.sin omega_s) / 3600

/-- calculate_terrain_correction of the script, lines 251 to 269. -/
noncomputable def calculate_terrain_correction
    (slope_deg aspect_deg latitude : ℝ) : ℝ :=
  let slope_rad := radians slope_deg
  let aspect_rad := radians aspect_deg
  let aspect_correction := Real.cos (aspect_rad - radians 180)
  let optimal_slope := |latitude|
  let slope_diff := |slope_deg - optimal_slope|
  let slope_correction := 1.0 + 0.15 * Real.cos (radians slope_diff) - 0.15
  let terrain_factor := 1.0 + aspect_correction * 0.1 * Real.sin slope_rad
  max 0.5 (min 1.3 (terrain_factor * slope_correction))

/-- calculate_daily_radiation of the script, lines 271 to 294. -/
noncomputable def calculate_daily_radiation
    (day latitude slope_deg aspect_deg shadow turb : ℝ) : ℝ :=
  let declination := calculate_solar_declination day
  let H0 := calculate_extraterrestrial_radiation day latitude declination
  let atmospheric_transmissivity : ℝ := 0.75
  let global_radiation_horizontal :=
    H0 * atmospheric_transmissivity * linke_factor turb
  let terrain_factor := calculate_terrain_correction slope_deg aspect_deg latitude
  global_radiation_horizontal * terrain_factor * shadow

/-- Accumulator loop of the script, lines 297 to 312: a running sum of the
daily radiation over the sampled days, started at 0.0. -/
noncomputable def annual_insolation_sum_wh_m2
    (days : List ℝ) (latitude slope_deg aspect_deg shadow turb : ℝ) : ℝ :=
  days.foldl
    (fun acc day => acc + calculate_daily_radiation day latitude slope_deg aspect_deg shadow turb)
    0.0

/-- Average daily insolation of the script, line 317. -/
noncomputable def average_daily_insolation_wh_m2
    (days : List ℝ) (latitude slope_deg aspect_deg shadow turb : ℝ) : ℝ :=
  annual_insolation_sum_wh_m2 days latitude slope_deg aspect_deg shadow turb /
    (days.length : ℝ)

/-- Annual insolation of the script, line 318. -/
noncomputable def annual_insolation_kwh_m2
    (days : List ℝ) (latitude slope_deg aspect_deg shadow turb : ℝ) : ℝ :=
  average_daily_insolation_wh_m2 days latitude slope_deg aspect_deg shadow turb *
    365.0 / 1000.0

/-- Arithmetic mean of a list of reals; stated from the words of the
specification for comparison with the accumulation of the script. -/
noncomputable def list_mean (l : List ℝ) : ℝ := l.sum / (l.length : ℝ)

/-- Final record of the pipeline, section 6 of the script. -/
structure YieldEstimate where
  annual_insolation_kwh_m2 : ℝ
  roof_area_m2 : ℝ
  potential_power_kwh_year : ℝ

/-- Failure signal of the aggregation, section 6 of the script: when the
accumulated insolation is not positive (in particular when the day list is
empty) no estimate is produced and an error is reported. -/
inductive YieldError where
  | noSamplesError
  deriving DecidableEq

/-- Aggregator of the script, sections 5 and 6: accumulate the daily
radiation over the sampled days; if the sum is positive, form the average,
the annual insolation and the yield; otherwise report the error and
produce no estimate. -/
noncomputable def estimate_annual_yield
    (days : List ℝ) (latitude slope_deg aspect_deg shadow turb area eff perf : ℝ) :
    Except YieldError YieldEstimate :=
  let s := annual_insolation_sum_wh_m2 days latitude slope_deg aspect_deg shadow turb
  if 0 < s then
    let avg := s / (days.length : ℝ)
    let kwh := avg * 365.0 / 1000.0
    Except.ok ⟨kwh, area, potential_power_kwh_year area kwh eff perf⟩
  else
    Except.error YieldError.noSamplesError

/-- Left fold of additions of mapped values is the sum of the mapped list
shifted by the initial accumulator. -/
theorem foldl_add_map_sum (f : ℝ → ℝ) (l : List ℝ) (a : ℝ) :
    l.foldl (fun acc d => acc + f d) a = a + (l.map f).sum := by
  induction l generalizing a with
  | nil => simp
  | cons x xs ih =>
    simp only [List.foldl_cons, List.map_cons, List.sum_cons, ih]
    ring

/-- Claim C1: for every non-empty list of day samples, the annual
insolation equals the arithmetic mean of the per-day global radiation
values over the sampled days, multiplied by 365 and divided by 1000. -/
theorem annual_insolation_is_scaled_mean
    (days : List ℝ) (latitude slope_deg aspect_deg shadow turb : ℝ)
    (hne : days ≠ []) :
    annual_insolation_kwh_m2 days latitude slope_deg aspect_deg shadow turb =
      list_mean (days.map fun d =>
        calculate_daily_radiation d latitude slope_deg aspect_deg shadow turb) *
        365 / 1000 := by
  simp only [annual_insolation_kwh_m2, average_daily_insolation_wh_m2,
    annual_insolation_sum_wh_m2, list_mean, foldl_add_map_sum, List.length_map]
  norm_num

/-- Witness for annual_insolation_is_scaled_mean on the day sample of the
script and its target latitude and defaults. -/
theorem annual_insolation_is_scaled_mean_witness :
    annual_insolation_kwh_m2 [80, 172, 264, 355] 48.154694 0 180 1 3 =
      list_mean (([80, 172, 264, 355] : List ℝ).map fun d =>
        calculate_daily_radiation d 48.154694 0 180 1 3) * 365 / 1000 :=
  annual_insolation_is_scaled_mean [80, 172, 264, 355] 48.154694 0 180 1 3
    (by simp)

/-- Claim C2: on an empty day sample set the aggregator reports the
explicit no-samples error, produces no partial YieldEstimate, and the
accumulator performs no accumulation at all: its value is exactly 0. -/
theorem estimate_annual_yield_empty
    (latitude slope_deg aspect_deg shadow turb area eff perf : ℝ) :
    estimate_annual_yield [] latitude slope_deg aspect_deg shadow turb area eff perf =
        Except.error YieldError.noSamplesError ∧
      annual_insolation_sum_wh_m2 [] latitude slope_deg aspect_deg shadow turb = 0 := by
  have hsum : annual_insolation_sum_wh_m2 [] latitude slope_deg aspect_deg shadow turb = 0 := by
    simp [annual_insolation_sum_wh_m2]
    norm_num
  refine ⟨?_, hsum⟩
  rw [estimate_annual_yield]
  rw [if_neg]
  rw [hsum]
  exact lt_irrefl 0

/-- Claim C6: for every slope in [0, 90], aspect in [0, 360) and latitude
in [-90, 90], the terrain correction factor lies within [0.5, 1.3]. -/
theorem terrain_correction_bounded (slope_deg aspect_deg latitude : ℝ)
    (h1 : 0 ≤ slope_deg) (h2 : slope_deg ≤ 90)
    (h3 : 0 ≤ aspect_deg) (h4 : aspect_deg < 360)
    (h5 : -90 ≤ latitude) (h6 : latitude ≤ 90) :
    0.5 ≤ calculate_terrain_correction slope_deg aspect_deg latitude ∧
      calculate_terrain_correction slope_deg aspect_deg latitude ≤ 1.3 := by
  simp only [calculate_terrain_correction]
  constructor
  · exact le_max_left _ _
  · exact max_le (by norm_num) (min_le_left _ _)

/-- Witness for terrain_correction_bounded at slope 30, aspect 180 and
the target latitude of the script. -/
theorem terrain_correction_bounded_witness :
    0.5 ≤ calculate_terrain_correction 30 180 48.154694 ∧
      calculate_terrain_correction 30 180 48.154694 ≤ 1.3 :=
  terrain_correction_bounded 30 180 48.154694 (by norm_num) (by norm_num)
    (by norm_num) (by norm_num) (by norm_num) (by norm_num)

/-- The declination formula is bounded by its amplitude 23.45 degrees. -/
theorem abs_declination_le (day : ℝ) : |calculate_solar_declination day| ≤ 23.45 := by
  simp only [calculate_solar_declination, abs_mul]
  calc |(23.45 : ℝ)| * |Real.sin (radians (360 / 365 * (day - 81)))|
      ≤ |(23.45 : ℝ)| * 1 :=
        mul_le_mul_of_nonneg_left (Real.abs_sin_le_one _) (abs_nonneg _)
    _ = 23.45 := by norm_num

/-- Monotonicity of the tangent on the nonnegative part of its principal
branch, in non-strict form. -/
theorem tan_mono_nonneg {a b : ℝ} (ha : 0 ≤ a) (hab : a ≤ b)
    (hb : b < Real.pi / 2) : Real.tan a ≤ Real.tan b := by
  rcases eq_or_lt_of_le hab with h | h
  · rw [h]
  · exact (Real.tan_lt_tan_of_nonneg_of_lt_pi_div_two ha hb h).le

/-- A bound on the absolute tangent from a bound on the absolute angle
inside the principal branch. -/
theorem abs_tan_le {x c : ℝ} (hxc : |x| ≤ c) (hc : c < Real.pi / 2) :
    |Real.tan x| ≤ Real.tan c := by
  rcases le_or_lt 0 x with h | h
  · rw [abs_of_nonneg h] at hxc
    rw [abs_of_nonneg
      (Real.tan_nonneg_of_nonneg_of_le_pi_div_two h (le_trans hxc hc.le))]
    exact tan_mono_nonneg h hxc hc
  · rw [abs_of_neg h] at hxc
    have hx2 : -(Real.pi / 2) ≤ x := by linarith
    rw [abs_of_nonpos (Real.tan_nonpos_of_nonpos_of_neg_pi_div_two_le h.le hx2),
      ← Real.tan_neg]
    exact tan_mono_nonneg (by linarith) hxc hc

/-- The product of the tangents of the extreme latitude 66.5 degrees and
the extreme declination 23.45 degrees is below 1, because the two angles
sum to less than 90 degrees. -/
theorem tan_extreme_prod_lt_one :
    Real.tan (66.5 * Real.pi / 180) * Real.tan (23.45 * Real.pi / 180) < 1 := by
  have hpi := Real.pi_pos
  have hb0 : 0 < 23.45 * Real.pi / 180 := by positivity
  have hb2 : 23.45 * Real.pi / 180 < Real.pi / 2 := by linarith
  have ha0 : (0 : ℝ) ≤ 66.5 * Real.pi / 180 := by positivity
  have hab : 66.5 * Real.pi / 180 < Real.pi / 2 - 23.45 * Real.pi / 180 := by
    linarith
  have h1 : Real.tan (66.5 * Real.pi / 180) <
      Real.tan (Real.pi / 2 - 23.45 * Real.pi / 180) :=
    Real.tan_lt_tan_of_nonneg_of_lt_pi_div_two ha0 (by linarith) hab
  rw [Real.tan_pi_div_two_sub] at h1
  have hbt : 0 < Real.tan (23.45 * Real.pi / 180) :=
    Real.tan_pos_of_pos_of_lt_pi_div_two hb0 hb2
  calc Real.tan (66.5 * Real.pi / 180) * Real.tan (23.45 * Real.pi / 180)
      < (Real.tan (23.45 * Real.pi / 180))⁻¹ * Real.tan (23.45 * Real.pi / 180) :=
        mul_lt_mul_of_pos_right h1 hbt
    _ = 1 := inv_mul_cancel₀ (ne_of_gt hbt)

/-- Claim C4: for every latitude in [-66.5, 66.5] degrees and every day in
[1, 365], the daylight-hours computation applied to that latitude and the
declination of the day is defined after clamping and returns a value
strictly between 0 and 24 hours. -/
theorem daylight_hours_in_range (latitude day : ℝ)
    (hl1 : -66.5 ≤ latitude) (hl2 : latitude ≤ 66.5)
    (hd1 : 1 ≤ day) (hd2 : day ≤ 365) :
    0 < calculate_daylight_hours latitude (calculate_solar_declination day) ∧
      calculate_daylight_hours latitude (calculate_solar_declination day) < 24 := by
  have hpi := Real.pi_pos
  have hlat_abs : |latitude| ≤ 66.5 := abs_le.mpr ⟨hl1, hl2⟩
  have hd_abs : |calculate_solar_declination day| ≤ 23.45 := abs_declination_le day
  have h66 : (66.5 : ℝ) * Real.pi / 180 < Real.pi / 2 := by linarith
  have h23 : (23.45 : ℝ) * Real.pi / 180 < Real.pi / 2 := by linarith
  have hlr : |radians latitude| ≤ 66.5 * Real.pi / 180 := by
    simp only [radians, abs_div, abs_mul, abs_of_pos hpi,
      abs_of_pos (by norm_num : (0 : ℝ) < 180)]
    gcongr
  have hdr : |radians (calculate_solar_declination day)| ≤ 23.45 * Real.pi / 180 := by
    simp only [radians, abs_div, abs_mul, abs_of_pos hpi,
      abs_of_pos (by norm_num : (0 : ℝ) < 180)]
    gcongr
  have hta : |Real.tan (radians latitude)| ≤ Real.tan (66.5 * Real.pi / 180) :=
    abs_tan_le hlr h66
  have htd : |Real.tan (radians (calculate_solar_declination day))| ≤
      Real.tan (23.45 * Real.pi / 180) := abs_tan_le hdr h23
  have hprod : |Real.tan (radians latitude) *
      Real.tan (radians (calculate_solar_declination day))| < 1 := by
    rw [abs_mul]
    calc |Real.tan (radians latitude)| *
        |Real.tan (radians (calculate_solar_declination day))|
        ≤ Real.tan (66.5 * Real.pi / 180) * Real.tan (23.45 * Real.pi / 180) :=
          mul_le_mul hta htd (abs_nonneg _) (le_trans (abs_nonneg _) hta)
      _ < 1 := tan_extreme_prod_lt_one
  have hx : |-Real.tan (radians latitude) *
      Real.tan (radians (calculate_solar_declination day))| < 1 := by
    rw [neg_mul, abs_neg]
    exact hprod
  rw [abs_lt] at hx
  simp only [calculate_daylight_hours]
  rw [min_eq_right hx.2.le, max_eq_right hx.1.le]
  have homega1 : 0 < Real.arccos (-Real.tan (radians latitude) *
      Real.tan (radians (calculate_solar_declination day))) :=
    Real.arccos_pos.mpr hx.2
  have homega2 : Real.arccos (-Real.tan (radians latitude) *
      Real.tan (radians (calculate_solar_declination day))) < Real.pi := by
    refine lt_of_le_of_ne (Real.arccos_le_pi _) (fun h => ?_)
    have := Real.arccos_eq_pi.mp h
    linarith [hx.1]
  constructor
  · apply div_pos (by linarith) hpi
  · rw [div_lt_iff hpi]
    linarith

/-- Witness for daylight_hours_in_range at the target latitude of the
script and the spring day sample. -/
theorem daylight_hours_in_range_witness :
    0 < calculate_daylight_hours 48.154694 (calculate_solar_declination 80) ∧
      calculate_daylight_hours 48.154694 (calculate_solar_declination 80) < 24 :=
  daylight_hours_in_range 48.154694 80 (by norm_num) (by norm_num)
    (by norm_num) (by norm_num)

/-- The declination argument at day 80 is minus two times pi over 365. -/
theorem declination_arg_day80 :
    calculate_solar_declination 80 = -(23.45 * Real.sin (2 * Real.pi / 365)) := by
  unfold calculate_solar_declination
  have h : radians (360 / 365 * ((80 : ℝ) - 81)) = -(2 * Real.pi / 365) := by
    unfold radians; ring
  rw [h, Real.sin_neg]
  ring

/-- The declination argument at day 172 reduces to the cosine of pi over
730 by the complement identity. -/
theorem declination_arg_day172 :
    calculate_solar_declination 172 = 23.45 * Real.cos (Real.pi / 730) := by
  unfold calculate_solar_declination
  have h : radians (360 / 365 * ((172 : ℝ) - 81)) = Real.pi / 2 - Real.pi / 730 := by
    unfold radians; ring
  rw [h, Real.sin_pi_div_two_sub]

/-- The declination argument at day 264 reduces to minus the sine of pi
over 365 by the half-turn identity. -/
theorem declination_arg_day264 :
    calculate_solar_declination 264 = -(23.45 * Real.sin (Real.pi / 365)) := by
  unfold calculate_solar_declination
  have h : radians (360 / 365 * ((264 : ℝ) - 81)) = Real.pi / 365 + Real.pi := by
    unfold radians; ring
  rw [h, Real.sin_add_pi]
  ring

/-- The declination argument at day 355 reduces to minus the cosine of pi
over 730 by the half-turn and quarter-turn identities. -/
theorem declination_arg_day355 :
    calculate_solar_declination 355 = -(23.45 * Real.cos (Real.pi / 730)) := by
  unfold calculate_solar_declination
  have h : radians (360 / 365 * ((355 : ℝ) - 81)) =
      Real.pi / 730 + Real.pi / 2 + Real.pi := by
    unfold radians; ring
  rw [h, Real.sin_add_pi, Real.sin_add_pi_div_two]
  ring

/-- Numeric bounds on the sine of two pi over 365. -/
theorem sin_two_pi_div_365_bounds :
    0.0171 < Real.sin (2 * Real.pi / 365) ∧
      Real.sin (2 * Real.pi / 365) < 0.01727 := by
  have hpl : (3.14 : ℝ) < Real.pi := Real.pi_gt_d2
  have hpu : Real.pi < 3.15 := Real.pi_lt_d2
  have hx0 : (0 : ℝ) < 2 * Real.pi / 365 := by positivity
  have hxu : 2 * Real.pi / 365 < 0.01727 := by linarith
  have hxl : (0.0172 : ℝ) < 2 * Real.pi / 365 := by linarith
  have hx1 : 2 * Real.pi / 365 ≤ 1 := by linarith
  have hcube : (2 * Real.pi / 365) ^ 3 ≤ (0.01727 : ℝ) ^ 3 :=
    pow_le_pow_left hx0.le hxu.le 3
  have hcn : (0.01727 : ℝ) ^ 3 < 0.0000052 := by norm_num
  have hgt := Real.sin_gt_sub_cube hx0 hx1
  have hlt := Real.sin_lt hx0
  constructor
  · linarith
  · linarith

/-- Numeric bounds on the sine of pi over 365. -/
theorem sin_pi_div_365_bounds :
    0.0086 < Real.sin (Real.pi / 365) ∧ Real.sin (Real.pi / 365) < 0.00864 := by
  have hpl : (3.14 : ℝ) < Real.pi := Real.pi_gt_d2
  have hpu : Real.pi < 3.15 := Real.pi_lt_d2
  have hx0 : (0 : ℝ) < Real.pi / 365 := by positivity
  have hxu : Real.pi / 365 < 0.00864 := by linarith
  have hxl : (0.0086 : ℝ) < Real.pi / 365 := by linarith
  have hx1 : Real.pi / 365 ≤ 1 := by linarith
  have hcube : (Real.pi / 365) ^ 3 ≤ (0.00864 : ℝ) ^ 3 :=
    pow_le_pow_left hx0.le hxu.le 3
  have hcn : (0.00864 : ℝ) ^ 3 < 0.00000065 := by norm_num
  have hgt := Real.sin_gt_sub_cube hx0 hx1
  have hlt := Real.sin_lt hx0
  constructor
  · linarith
  · linarith

/-- Numeric bounds on the cosine of pi over 730. -/
theorem cos_pi_div_730_bounds :
    0.9999 < Real.cos (Real.pi / 730) ∧ Real.cos (Real.pi / 730) ≤ 1 := by
  have hpl : (3.14 : ℝ) < Real.pi := Real.pi_gt_d2
  have hpu : Real.pi < 3.15 := Real.pi_lt_d2
  have hx0 : (0 : ℝ) < Real.pi / 730 := by positivity
  have hxu : Real.pi / 730 < 0.00432 := by linarith
  have hsq : (Real.pi / 730) ^ 2 ≤ (0.00432 : ℝ) ^ 2 :=
    pow_le_pow_left hx0.le hxu.le 2
  have hsn : (0.00432 : ℝ) ^ 2 < 0.0000187 := by norm_num
  have hge := Real.one_sub_sq_div_two_le_cos (x := Real.pi / 730)
  exact ⟨by linarith, Real.cos_le_one _⟩

/-- Claim C8, counterexample: at day 80 the declination formula yields a
value within 0.01 of -0.40 degrees, more than 6 degrees away from the
-7.15 degrees stated by the specification. -/
theorem declination_day80_not_near_spec :
    6 < |calculate_solar_declination 80 + 7.15| := by
  have hs := sin_two_pi_div_365_bounds
  have h : 6 < calculate_solar_declination 80 + 7.15 := by
    rw [declination_arg_day80]
    nlinarith [hs.1, hs.2]
  exact lt_of_lt_of_le h (le_abs_self _)

/-- Claim C8, amended: for days 80, 172, 264 and 355 the declination
formula yields values within 0.01 degrees of -0.404, 23.45, -0.202 and
-23.45 degrees respectively; days 80 and 264 fall near the equinoxes with
near-zero declination, not -7.15 and 2.9 degrees. -/
theorem declinations_at_sampled_days :
    |calculate_solar_declination 80 + 0.404| < 0.01 ∧
      |calculate_solar_declination 172 - 23.45| < 0.01 ∧
      |calculate_solar_declination 264 + 0.202| < 0.01 ∧
      |calculate_solar_declination 355 + 23.45| < 0.01 := by
  have h80 := sin_two_pi_div_365_bounds
  have h172 := cos_pi_div_730_bounds
  have h264 := sin_pi_div_365_bounds
  refine ⟨?_, ?_, ?_, ?_⟩
  · rw [declination_arg_day80, abs_lt]
    constructor <;> nlinarith [h80.1, h80.2]
  · rw [declination_arg_day172, abs_lt]
    constructor <;> nlinarith [h172.1, h172.2]
  · rw [declination_arg_day264, abs_lt]
    constructor <;> nlinarith [h264.1, h264.2]
  · rw [declination_arg_day355, abs_lt]
    constructor <;> nlinarith [h172.1, h172.2]
